import Mathlib

/-!
Shallow embedding of the client-side interaction controller of the
MNL-AI marketing website (src/script.js): counter parsing and animation,
the reveal observer, the navigation menu state machine, and the contact
form validation and submission flow.
-/

namespace MnlAi

/-! String helpers mirroring JavaScript primitives -/

/-- Whether the pattern list is an initial segment of the text list. -/
def startsWithL : List Char → List Char → Bool
  | [], _ => true
  | _ :: _, [] => false
  | a :: as, b :: bs => a == b && startsWithL as bs

/-- Whether the pattern occurs as a contiguous run of the text list. -/
def subOccurs : List Char → List Char → Bool
  | p, [] => startsWithL p []
  | p, h :: t => startsWithL p (h :: t) || subOccurs p t

/-- JavaScript `s.includes(pat)`: substring containment. -/
def containsSub (s pat : String) : Bool :=
  subOccurs pat.toList s.toList

/-- The digit characters of a string, in order: `s.replace(/[^\d]/g, "")`. -/
def digitsOf (s : String) : List Char :=
  s.toList.filter Char.isDigit

/-- JavaScript `parseInt(s.replace(/[^\d]/g, ""))`: strip non-digits, parse;
`NaN` (here `none`) when no digits remain. -/
def parseIntStrip (s : String) : Option Nat :=
  match digitsOf s with
  | [] => none
  | ds => some (ds.foldl (fun acc c => acc * 10 + (c.toNat - 48)) 0)

/-! Counter parsing — `animateCounters` in src/script.js -/

/-- Result of parsing one counter element: target value (none when the
text yields `NaN` and the counter is skipped), static text before the
number, and text after the number. -/
structure CounterSpec where
  target : Option Nat
  pre : String
  suff : String
deriving DecidableEq

/-- Parsing of `finalText` in `animateCounters` (src/script.js lines
375-388): literal markers "20", "7-14", "100" tried in order before the
generic strip-digits fallback; in the fallback the "%" assignment runs
after the "+" assignment, so "%" wins when both occur. -/
def parseCounter (finalText : String) : CounterSpec :=
  if containsSub finalText "20" then ⟨some 20, "", "+"⟩
  else if containsSub finalText "7-14" then ⟨some 14, "7-", ""⟩
  else if containsSub finalText "100" then ⟨some 100, "", "%"⟩
  else
    { target := parseIntStrip finalText
      pre := ""
      suff :=
        if containsSub finalText "%" then "%"
        else if containsSub finalText "+" then "+"
        else "" }

/-! Counter animation — `updateCounter` in src/script.js -/

/-- Fixed animation duration in milliseconds. -/
def duration : Nat := 2000

/-- `progress = Math.min(elapsed / duration, 1)`. -/
def progressQ (elapsed : Nat) : ℚ :=
  min ((elapsed : ℚ) / (duration : ℚ)) 1

/-- `easeOutQuart = 1 - Math.pow(1 - progress, 4)`. -/
def easeOutQuart (p : ℚ) : ℚ :=
  1 - (1 - p) ^ 4

/-- `Math.floor(targetValue * easeOutQuart)`: the displayed numeric value
at a given elapsed time. -/
def displayValue (target elapsed : Nat) : ℤ :=
  ⌊(target : ℚ) * easeOutQuart (progressQ elapsed)⌋

/-- The text the counter shows at a given elapsed time, from
`updateCounter` (src/script.js lines 397-421): while `progress < 1`,
the static front text, the floored value and the trailing text, with the
special case forcing "7-14";
at `progress = 1` the original `finalText` verbatim. A counter whose
parse yields no target is skipped and keeps its text. -/
def updateCounterText (finalText : String) (elapsed : Nat) : String :=
  let ps := parseCounter finalText
  match ps.target with
  | none => finalText
  | some tv =>
    if progressQ elapsed < 1 then
      let base := ps.pre ++ toString (displayValue tv elapsed) ++ ps.suff
      if containsSub finalText "7-14" && tv == 14 then "7-14" else base
    else finalText

/-! Counter trigger latch — `setupCounterAnimations` in src/script.js -/

/-- The module-level latch shared by all counters, with a count of how
many times the animation body has actually run. -/
structure CounterLatch where
  hasAnimated : Bool
  runs : Nat
deriving DecidableEq

/-- `animateCounters` entry guard (src/script.js lines 364-366): return
immediately when the latch is set, otherwise set it and run the body. -/
def animateCounters (s : CounterLatch) : CounterLatch :=
  if s.hasAnimated then s else { hasAnimated := true, runs := s.runs + 1 }

/-- Latch state at page load. -/
def latchStart : CounterLatch := { hasAnimated := false, runs := 0 }

/-- State after `n` visibility-trigger events, each of which invokes
`animateCounters`. -/
def runTriggers : Nat → CounterLatch
  | 0 => latchStart
  | n + 1 => animateCounters (runTriggers n)

/-! Scroll reveal — `setupScrollAnimations` in src/script.js -/

/-- Per-element reveal state: whether the visibility observer is still
watching the element, whether a delayed reveal timeout is pending, and
whether the element carries the revealed class. -/
structure RevealState where
  observed : Bool
  pending : Bool
  revealed : Bool
deriving DecidableEq

/-- Events that can reach one reveal-flagged element: an intersection
callback (with its isIntersecting flag) and the firing of the delayed
reveal timeout. -/
inductive RevealEvent where
  | intersect (isIntersecting : Bool)
  | delayFire
deriving DecidableEq

/-- One step of the observer callback of src/script.js lines 328-343: an
intersecting entry schedules the delayed classList.add("revealed") and
unobserves the target; the timeout firing marks the element revealed.
Events reach an element only while it is observed. -/
def revealStep (s : RevealState) (e : RevealEvent) : RevealState :=
  match e with
  | .intersect b =>
      if s.observed && b then { s with observed := false, pending := true } else s
  | .delayFire =>
      if s.pending then { s with pending := false, revealed := true } else s

/-- State of a non-hero reveal element right after init: observed, no
pending timeout, not yet revealed. -/
def revealInit : RevealState := { observed := true, pending := false, revealed := false }

/-- Run a sequence of events against one element. -/
def runReveal (s : RevealState) : List RevealEvent → RevealState
  | [] => s
  | e :: es => runReveal (revealStep s e) es

/-- Number of pending-to-revealed transitions along a trace. -/
def revealFlips (s : RevealState) : List RevealEvent → Nat
  | [] => 0
  | e :: es =>
      (if s.revealed = false ∧ (revealStep s e).revealed = true then 1 else 0) +
        revealFlips (revealStep s e) es

/-- A reveal-flagged element of the page: whether it sits inside the
hero region, plus its position among the hero elements. -/
structure RevealElem where
  inHero : Bool
  tag : Nat
deriving DecidableEq

/-- The elements handed to the visibility observer (src/script.js lines
346-350): every reveal-flagged element not inside the hero region. -/
def observedElems (els : List RevealElem) : List RevealElem :=
  els.filter (fun e => !e.inHero)

/-- The hero reveal-flagged elements, in document order. -/
def heroElems (els : List RevealElem) : List RevealElem :=
  els.filter (fun e => e.inHero)

/-- Pair each element with its staggered delay, counting indices from i. -/
def scheduleFrom (i : Nat) : List RevealElem → List (RevealElem × Nat)
  | [] => []
  | e :: es => (e, i * 100) :: scheduleFrom (i + 1) es

/-- `triggerInitialAnimations` (src/script.js lines 61-69): each hero
reveal element is scheduled for an immediate staggered reveal, the
element at index i after i * 100 ms. -/
def heroRevealSchedule (els : List RevealElem) : List (RevealElem × Nat) :=
  scheduleFrom 0 (heroElems els)

/-! Lemmas about the reveal subsystem -/

theorem revealStep_mono_revealed {s : RevealState} (e : RevealEvent)
    (h : s.revealed = true) : (revealStep s e).revealed = true := by
  cases e <;> simp only [revealStep] <;> split <;> simp [h]

theorem revealStep_mono_unobserved {s : RevealState} (e : RevealEvent)
    (h : s.observed = false) : (revealStep s e).observed = false := by
  cases e <;> simp only [revealStep] <;> split <;> simp [h]

theorem runReveal_mono_revealed (evts : List RevealEvent) {s : RevealState}
    (h : s.revealed = true) : (runReveal s evts).revealed = true := by
  induction evts generalizing s with
  | nil => exact h
  | cons e es ih => exact ih (revealStep_mono_revealed e h)

theorem runReveal_mono_unobserved (evts : List RevealEvent) {s : RevealState}
    (h : s.observed = false) : (runReveal s evts).observed = false := by
  induction evts generalizing s with
  | nil => exact h
  | cons e es ih => exact ih (revealStep_mono_unobserved e h)

theorem revealFlips_of_revealed (evts : List RevealEvent) {s : RevealState}
    (h : s.revealed = true) : revealFlips s evts = 0 := by
  induction evts generalizing s with
  | nil => rfl
  | cons e es ih =>
    unfold revealFlips
    rw [if_neg (by rw [h]; simp), ih (revealStep_mono_revealed e h)]

theorem revealFlips_le_one (evts : List RevealEvent) (s : RevealState) :
    revealFlips s evts ≤ 1 := by
  induction evts generalizing s with
  | nil => exact Nat.zero_le 1
  | cons e es ih =>
    unfold revealFlips
    by_cases hc : s.revealed = false ∧ (revealStep s e).revealed = true
    · rw [if_pos hc, revealFlips_of_revealed es hc.2]
    · rw [if_neg hc]
      exact Nat.le_trans (Nat.le_of_eq (Nat.zero_add _)) (ih _)

theorem scheduleFrom_map_fst (i : Nat) (l : List RevealElem) :
    (scheduleFrom i l).map Prod.fst = l := by
  induction l generalizing i with
  | nil => rfl
  | cons e es ih => simp [scheduleFrom, ih]

/-! Claim theorems for the reveal subsystem -/

/-- C5: for every reveal-flagged element outside the hero region, across
any sequence of intersection and timer events the transition to the
revealed state happens at most once and is never reverted: a revealed
element stays revealed under every further event, an unobserved element
stays unobserved, and from the initial state one intersection followed
by the delay firing leaves the element revealed, unobserved and with no
pending timeout. -/
theorem reveal_at_most_once_never_reverted (evts evts1 evts2 : List RevealEvent)
    (s1 s2 : RevealState) (h1 : s1.revealed = true) (h2 : s2.observed = false) :
    revealFlips revealInit evts ≤ 1 ∧
    (runReveal s1 evts1).revealed = true ∧
    (runReveal s2 evts2).observed = false ∧
    runReveal revealInit [RevealEvent.intersect true, RevealEvent.delayFire] =
      { observed := false, pending := false, revealed := true } :=
  ⟨revealFlips_le_one evts revealInit,
   runReveal_mono_revealed evts1 h1,
   runReveal_mono_unobserved evts2 h2,
   by decide⟩

/-- A reveal state that is already revealed and unobserved. -/
def settledReveal : RevealState := { observed := false, pending := false, revealed := true }

/-- Witness for C5: a trace with a second intersection after the reveal. -/
theorem reveal_at_most_once_witness :
    (settledReveal.revealed = true ∧ settledReveal.observed = false) ∧
    revealFlips revealInit
      [RevealEvent.intersect true, RevealEvent.delayFire, RevealEvent.intersect true] ≤ 1 :=
  ⟨⟨rfl, rfl⟩,
   (reveal_at_most_once_never_reverted
      [RevealEvent.intersect true, RevealEvent.delayFire, RevealEvent.intersect true]
      [] [] settledReveal settledReveal rfl rfl).1⟩

/-- A two-element sample page: one hero element, one non-hero element. -/
def sampleEls : List RevealElem := [{ inHero := true, tag := 0 }, { inHero := false, tag := 1 }]

/-- The hero element of the sample page. -/
def sampleHeroEl : RevealElem := { inHero := true, tag := 0 }

/-- C8: every reveal-flagged element inside the hero region is excluded
from the scroll-visibility observer and instead appears in the immediate
staggered load-time reveal schedule, which covers exactly the hero
elements in order. -/
theorem hero_excluded_from_observer (els : List RevealElem) (e : RevealElem)
    (hmem : e ∈ els) (hhero : e.inHero = true) :
    e ∉ observedElems els ∧
    e ∈ (heroRevealSchedule els).map Prod.fst ∧
    (heroRevealSchedule els).map Prod.fst = heroElems els := by
  refine ⟨?_, ?_, scheduleFrom_map_fst 0 _⟩
  · intro hobs
    have hcond := (List.mem_filter.mp hobs).2
    rw [hhero] at hcond
    simp at hcond
  · unfold heroRevealSchedule
    rw [scheduleFrom_map_fst]
    exact List.mem_filter.mpr ⟨hmem, hhero⟩

/-- Witness for C8 on the sample page. -/
theorem hero_excluded_from_observer_witness :
    (sampleHeroEl ∈ sampleEls ∧ sampleHeroEl.inHero = true) ∧
    sampleHeroEl ∉ observedElems sampleEls :=
  ⟨⟨by decide, rfl⟩,
   (hero_excluded_from_observer sampleEls sampleHeroEl (by decide) rfl).1⟩

/-! Navigation menu — `setupNavigation` in src/script.js -/

/-- Mobile menu state: whether the menu is open (the active class on the
toggle and the panel), whether body overflow is set to hidden, and the
value of the aria-expanded attribute on the toggle control. -/
structure NavState where
  menuOpen : Bool
  scrollLocked : Bool
  ariaExpanded : Bool
deriving DecidableEq

/-- The four handlers of src/script.js lines 213-252 that touch the
menu: the toggle click, a nav-link click, a click outside the navbar,
and the Escape key. -/
inductive NavEvent where
  | toggleClick
  | navLinkClick
  | outsideClick
  | escapeKey
deriving DecidableEq

/-- One handler invocation: the toggle click flips the active classes,
sets body overflow to hidden exactly when the menu became open, and
writes aria-expanded; each close handler removes the active classes,
clears the overflow style and sets aria-expanded to false (the Escape
handler only acts while the menu is open). -/
def navStep (s : NavState) (e : NavEvent) : NavState :=
  match e with
  | .toggleClick =>
      let isActive := !s.menuOpen
      { menuOpen := isActive, scrollLocked := isActive, ariaExpanded := isActive }
  | .navLinkClick => { menuOpen := false, scrollLocked := false, ariaExpanded := false }
  | .outsideClick => { menuOpen := false, scrollLocked := false, ariaExpanded := false }
  | .escapeKey =>
      if s.menuOpen then { menuOpen := false, scrollLocked := false, ariaExpanded := false }
      else s

/-- Menu state at page load: closed, no scroll lock. -/
def navInit : NavState := { menuOpen := false, scrollLocked := false, ariaExpanded := false }

/-- Run a sequence of menu events. -/
def navRun (s : NavState) : List NavEvent → NavState
  | [] => s
  | e :: es => navRun (navStep s e) es

/-- The scroll lock and the aria-expanded attribute track the menu-open
state. -/
def navCoherent (s : NavState) : Prop :=
  s.scrollLocked = s.menuOpen ∧ s.ariaExpanded = s.menuOpen

theorem navStep_coherent {s : NavState} (e : NavEvent) (h : navCoherent s) :
    navCoherent (navStep s e) := by
  cases e <;> simp only [navStep]
  · exact ⟨rfl, rfl⟩
  · exact ⟨rfl, rfl⟩
  · exact ⟨rfl, rfl⟩
  · split
    · exact ⟨rfl, rfl⟩
    · exact h

theorem navRun_coherent (evts : List NavEvent) {s : NavState} (h : navCoherent s) :
    navCoherent (navRun s evts) := by
  induction evts generalizing s with
  | nil => exact h
  | cons e es ih => exact ih (navStep_coherent e h)

theorem navStep_close_closes {s : NavState} (e : NavEvent)
    (he : e ≠ NavEvent.toggleClick) (h : navCoherent s) :
    (navStep s e).scrollLocked = false ∧ (navStep s e).ariaExpanded = false ∧
      (navStep s e).menuOpen = false := by
  cases e with
  | toggleClick => exact absurd rfl he
  | navLinkClick => exact ⟨rfl, rfl, rfl⟩
  | outsideClick => exact ⟨rfl, rfl, rfl⟩
  | escapeKey =>
    simp only [navStep]
    split
    · exact ⟨rfl, rfl, rfl⟩
    · rename_i hopen
      simp only [Bool.not_eq_true] at hopen
      exact ⟨h.1.trans hopen, h.2.trans hopen, hopen⟩

theorem navStep_escape_closed {s : NavState} (h : s.menuOpen = false) :
    navStep s NavEvent.escapeKey = s := by
  simp only [navStep]
  rw [h]
  simp

/-! Claim theorem for the navigation subsystem -/

/-- C9: from page load, after any sequence of menu events, an open menu
implies the page scroll is locked; every non-toggle close trigger
(nav-link click, outside click, Escape) leaves the scroll lock released
and aria-expanded false, and applying the same close trigger again
changes nothing; and a toggle click while the menu is open closes it,
releases the scroll lock and sets aria-expanded to false. -/
theorem menu_scroll_lock_sync (evts : List NavEvent) (e : NavEvent)
    (he : e ≠ NavEvent.toggleClick) :
    ((navRun navInit evts).menuOpen = true → (navRun navInit evts).scrollLocked = true) ∧
    (navStep (navRun navInit evts) e).scrollLocked = false ∧
    (navStep (navRun navInit evts) e).ariaExpanded = false ∧
    navStep (navStep (navRun navInit evts) e) e = navStep (navRun navInit evts) e ∧
    ((navRun navInit evts).menuOpen = true →
      (navStep (navRun navInit evts) NavEvent.toggleClick).menuOpen = false ∧
      (navStep (navRun navInit evts) NavEvent.toggleClick).scrollLocked = false ∧
      (navStep (navRun navInit evts) NavEvent.toggleClick).ariaExpanded = false) := by
  have hc : navCoherent (navRun navInit evts) := navRun_coherent evts ⟨rfl, rfl⟩
  obtain ⟨hl, ha, ho⟩ := navStep_close_closes e he hc
  refine ⟨fun hopen => hc.1.trans hopen, hl, ha, ?_, fun hopen => ?_⟩
  · have hc2 : navCoherent (navStep (navRun navInit evts) e) := navStep_coherent e hc
    cases e with
    | toggleClick => exact absurd rfl he
    | navLinkClick => rfl
    | outsideClick => rfl
    | escapeKey => exact navStep_escape_closed ho
  · refine ⟨?_, ?_, ?_⟩ <;> simp [navStep, hopen]

/-- Witness for C9: open the menu once with a toggle click, then take
Escape as the close trigger; the open menu is also closed by a second
toggle click. -/
theorem menu_scroll_lock_sync_witness :
    (NavEvent.escapeKey ≠ NavEvent.toggleClick ∧
      (navRun navInit [NavEvent.toggleClick]).menuOpen = true) ∧
    ((navStep (navRun navInit [NavEvent.toggleClick]) NavEvent.escapeKey).scrollLocked = false ∧
      (navStep (navRun navInit [NavEvent.toggleClick]) NavEvent.toggleClick).scrollLocked =
        false) :=
  ⟨⟨by decide, rfl⟩,
   ⟨(menu_scroll_lock_sync [NavEvent.toggleClick] NavEvent.escapeKey (by decide)).2.1,
    ((menu_scroll_lock_sync [NavEvent.toggleClick] NavEvent.escapeKey
        (by decide)).2.2.2.2 rfl).2.1⟩⟩

/-! Contact form — `setupContactForm` in src/script.js -/

/-- The four fields read from the form; a missing input is `none`. -/
structure ContactData where
  name : Option String
  email : Option String
  business : Option String
  message : Option String
deriving DecidableEq

/-- JavaScript `!field || field.length < n`: the field is missing, the
empty string, or shorter than n characters. -/
def fieldMissingOrShort (f : Option String) (n : Nat) : Bool :=
  match f with
  | none => true
  | some s => s == "" || s.length < n

/-- A character allowed by the `[^\s@]` classes of the email pattern. -/
def okChar (c : Char) : Bool := !c.isWhitespace && c != '@'

/-- Whether the list has a dot that is neither its first nor its last
character. -/
def interiorDot (b : List Char) : Bool :=
  match b with
  | [] => false
  | _ :: t => t.dropLast.contains '.'

/-- The email test of src/script.js line 466, the anchored pattern of
one or more non-space non-at characters, an at sign, one or more
non-space non-at characters, a dot, and one or more non-space non-at
characters: equivalently, exactly one at sign, no whitespace, a
non-empty local part, and a domain part with an interior dot. -/
def emailMatches (s : String) : Bool :=
  let cs := s.toList
  let a := cs.takeWhile (fun c => c != '@')
  match cs.dropWhile (fun c => c != '@') with
  | [] => false
  | _ :: b => !a.isEmpty && a.all okChar && !b.isEmpty && b.all okChar && interiorDot b

/-- JavaScript `!field || !regex.test(field)`. -/
def emailBad (f : Option String) : Bool :=
  match f with
  | none => true
  | some s => s == "" || !emailMatches s

def nameError : String := "Name must be at least 2 characters long"

def emailError : String := "Please enter a valid email address"

def businessError : String := "Business name must be at least 2 characters long"

def messageError : String := "Message must be at least 10 characters long"

/-- `validateForm` of src/script.js lines 459-479: every violated rule
pushes its message, in the fixed name, email, business, message order;
no rule short-circuits the others. -/
def validateForm (d : ContactData) : List String :=
  (if fieldMissingOrShort d.name 2 then [nameError] else []) ++
  (if emailBad d.email then [emailError] else []) ++
  (if fieldMissingOrShort d.business 2 then [businessError] else []) ++
  (if fieldMissingOrShort d.message 10 then [messageError] else [])

/-- JavaScript `s || fallback` on strings. -/
def jsOrDefault (s fallback : String) : String :=
  if s == "" then fallback else s

/-- JavaScript `o || fallback` on a possibly-missing string. -/
def jsOptOr (o : Option String) (fallback : String) : String :=
  match o with
  | none => fallback
  | some s => jsOrDefault s fallback

/-- The form after `contactForm.reset()`: every field empty. -/
def emptyFields : ContactData :=
  { name := some "", email := some "", business := some "", message := some "" }

/-- What the awaited submission produced: a parsed JSON response with
its success flag and optional error text, or a thrown transport or parse
error with its message. -/
inductive SubmitOutcome where
  | response (success : Bool) (error : Option String)
  | transportError (msg : String)
deriving DecidableEq

/-- The page state touched by the submit handler: the success modal, the
body scroll lock, the rendered form-error list, the form field values,
and the submit control. -/
structure PageState where
  modalOpen : Bool
  scrollLocked : Bool
  formErrors : List String
  fields : ContactData
  submitDisabled : Bool
  submitLabel : String
  networkCalls : Nat
deriving DecidableEq

/-- The submit handler of src/script.js lines 499-567: clear previous
errors, validate; on violations show them and stop before any network
call; otherwise capture the original submit label, disable the control,
show the busy label, issue the POST, and on the parsed response either
open the modal, lock scroll and reset the form (success true), or throw
the error text (or its fallback) into the catch that renders it; a
transport or parse throw is rendered the same way; the finally block
re-enables the control and restores the captured label. -/
def submitHandler (st : PageState) (o : SubmitOutcome) : PageState :=
  let cleared := { st with formErrors := [] }
  let errors := validateForm st.fields
  if errors.isEmpty then
    let originalContent := st.submitLabel
    let busy := { cleared with
      submitDisabled := true
      submitLabel := "Sending..."
      networkCalls := cleared.networkCalls + 1 }
    let afterTry :=
      match o with
      | .response true _ =>
          { busy with modalOpen := true, scrollLocked := true, fields := emptyFields }
      | .response false err =>
          { busy with formErrors :=
              [jsOrDefault (jsOptOr err "Something went wrong")
                "Failed to send message. Please try again."] }
      | .transportError m =>
          { busy with formErrors :=
              [jsOrDefault m "Failed to send message. Please try again."] }
    { afterTry with submitDisabled := false, submitLabel := originalContent }
  else
    { cleared with formErrors := errors }

/-! Lemmas about counter animation -/

theorem progressQ_le_one (e : Nat) : progressQ e ≤ 1 :=
  min_le_right _ _

theorem progressQ_mono {e1 e2 : Nat} (h : e1 ≤ e2) : progressQ e1 ≤ progressQ e2 := by
  unfold progressQ duration
  refine min_le_min ?_ le_rfl
  have h2 : ((2000 : Nat) : ℚ) > 0 := by norm_num
  exact (div_le_div_iff_of_pos_right h2).mpr (by exact_mod_cast h)

theorem progressQ_eq_one {e : Nat} (h : duration ≤ e) : progressQ e = 1 := by
  unfold progressQ
  refine min_eq_right ?_
  rw [one_le_div (by unfold duration; norm_num)]
  exact_mod_cast h

theorem easeOutQuart_mono {p q : ℚ} (hpq : p ≤ q) (hq : q ≤ 1) :
    easeOutQuart p ≤ easeOutQuart q := by
  unfold easeOutQuart
  have h1 : (0:ℚ) ≤ 1 - q := by linarith
  have h2 : (1:ℚ) - q ≤ 1 - p := by linarith
  have := pow_le_pow_left₀ h1 h2 4
  linarith

theorem displayValue_mono (target : Nat) {e1 e2 : Nat} (h : e1 ≤ e2) :
    displayValue target e1 ≤ displayValue target e2 := by
  unfold displayValue
  refine Int.floor_le_floor ?_
  refine mul_le_mul_of_nonneg_left ?_ (by positivity)
  exact easeOutQuart_mono (progressQ_mono h) (progressQ_le_one e2)

theorem updateCounterText_final (ft : String) {e : Nat} (h : duration ≤ e) :
    updateCounterText ft e = ft := by
  unfold updateCounterText
  cases htv : (parseCounter ft).target with
  | none => simp only [htv]
  | some tv =>
    simp only [htv]
    rw [if_neg]
    rw [progressQ_eq_one h]
    exact lt_irrefl 1

theorem runTriggers_closed (n : Nat) :
    runTriggers n = if n = 0 then latchStart else { hasAnimated := true, runs := 1 } := by
  induction n with
  | zero => rfl
  | succ k ih =>
    rw [runTriggers, ih]
    cases k with
    | zero => rfl
    | succ m => rfl

/-! Claim theorems for the counter subsystem -/

/-- C2: counter parsing, applied once to the trimmed finalText with the
literal markers "20", "7-14", "100" tried in priority order before
generic digit-stripping, sends "100%" to target 100 with "%" after the
value, "20+" to target 20 with "+" after the value, "7-14" to target 14
with the static text "7-" before the value and a final displayed text of
exactly "7-14", and skips "abc" (no digits) leaving its text unchanged
at every elapsed time. -/
theorem counter_parsing_examples :
    parseCounter "100%" = ⟨some 100, "", "%"⟩ ∧
    parseCounter "20+" = ⟨some 20, "", "+"⟩ ∧
    parseCounter "7-14" = ⟨some 14, "7-", ""⟩ ∧
    updateCounterText "7-14" duration = "7-14" ∧
    (parseCounter "abc").target = none ∧
    ∀ e : Nat, updateCounterText "abc" e = "abc" :=
  ⟨by decide, by decide, by decide, updateCounterText_final _ le_rfl,
   by decide, fun _ => rfl⟩

/-- C3: for every counter with a fixed parsed target, the displayed
numeric value floor(target * (1 - (1 - p)^4)) with
p = min(elapsedMs/2000, 1) is monotone non-decreasing as elapsed time
increases, and once progress reaches 1 the displayed text equals the
original finalText exactly. -/
theorem counter_display_monotone_and_final (target : Nat) (ft : String)
    (e1 e2 e3 : Nat) (h12 : e1 ≤ e2) (h3 : duration ≤ e3) :
    displayValue target e1 ≤ displayValue target e2 ∧
    updateCounterText ft e3 = ft :=
  ⟨displayValue_mono target h12, updateCounterText_final ft h3⟩

/-- Witness for C3 at target 100, finalText "100%", elapsed times 500,
1000 and 2000 ms. -/
theorem counter_display_monotone_and_final_witness :
    (500 ≤ 1000 ∧ duration ≤ 2000) ∧
    (displayValue 100 500 ≤ displayValue 100 1000 ∧
      updateCounterText "100%" 2000 = "100%") :=
  ⟨⟨by decide, by decide⟩,
   counter_display_monotone_and_final 100 "100%" 500 1000 2000
     (by decide) (by decide)⟩

/-- C4: all counters are guarded by one shared hasAnimated latch: over
any number of visibility-trigger events the animation body runs at most
once per page session, and once the latch is set a further trigger is a
no-op. -/
theorem counters_animate_at_most_once (n : Nat) (s : CounterLatch)
    (h : s.hasAnimated = true) :
    (runTriggers n).runs ≤ 1 ∧ animateCounters s = s := by
  constructor
  · rw [runTriggers_closed]
    cases n with
    | zero => simp [latchStart]
    | succ k => simp
  · unfold animateCounters
    rw [if_pos h]

/-- Witness for C4: three trigger events, and a latched state. -/
theorem counters_animate_at_most_once_witness :
    ({ hasAnimated := true, runs := 1 } : CounterLatch).hasAnimated = true ∧
    ((runTriggers 3).runs ≤ 1 ∧
      animateCounters { hasAnimated := true, runs := 1 } =
        { hasAnimated := true, runs := 1 }) :=
  ⟨rfl, counters_animate_at_most_once 3 { hasAnimated := true, runs := 1 } rfl⟩

/-! Claim theorems for the contact form -/

/-- A submission that passes every validation rule. -/
def validData : ContactData :=
  { name := some "Jo", email := some "a@b.com", business := some "Acme",
    message := some "Hello, I need a site." }

/-- A valid submission except that the business field is absent. -/
def noBusinessData : ContactData :=
  { name := some "Jo", email := some "a@b.com", business := none,
    message := some "hello world, I need a site." }

/-- The spec test vector with an empty name. -/
def specExampleData : ContactData :=
  { name := some "", email := some "a@b.com", business := none,
    message := some "hello world!" }

/-- Page state right before a submit of validData: modal closed, no
errors shown, idle submit control. -/
def readyState : PageState :=
  { modalOpen := false, scrollLocked := false, formErrors := [], fields := validData,
    submitDisabled := false, submitLabel := "Send Message", networkCalls := 0 }

/-- Page state right before a submit of the invalid spec test vector,
with a stale error already rendered. -/
def invalidState : PageState :=
  { modalOpen := false, scrollLocked := false, formErrors := ["old error"],
    fields := specExampleData, submitDisabled := false, submitLabel := "Send Message",
    networkCalls := 0 }

/-- C1: for a submission that passes validation, a response parsing to
success true opens the success modal, locks page scroll and clears the
form fields; a response with success false and nonempty error text x
leaves the modal closed and shows exactly the error text x; and in every
outcome, success, application failure or transport failure, the submit
control ends re-enabled with its original label restored. -/
theorem contact_submit_outcomes (st : PageState) (x : String) (e : Option String)
    (o : SubmitOutcome) (hv : validateForm st.fields = []) (hm : st.modalOpen = false)
    (hx : x ≠ "") :
    ((submitHandler st (.response true e)).modalOpen = true ∧
     (submitHandler st (.response true e)).scrollLocked = true ∧
     (submitHandler st (.response true e)).fields = emptyFields) ∧
    ((submitHandler st (.response false (some x))).modalOpen = false ∧
     (submitHandler st (.response false (some x))).formErrors = [x]) ∧
    ((submitHandler st o).submitDisabled = false ∧
     (submitHandler st o).submitLabel = st.submitLabel) := by
  have hxb : (x == "") = false := by
    rw [beq_eq_false_iff_ne]
    exact hx
  refine ⟨⟨?_, ?_, ?_⟩, ⟨?_, ?_⟩, ?_, ?_⟩ <;>
    simp [submitHandler, hv, jsOrDefault, jsOptOr, hxb, hm]

/-- Witness for C1: the valid submission with error text "X" and a
transport failure as the third outcome. -/
theorem contact_submit_outcomes_witness :
    (validateForm readyState.fields = [] ∧ readyState.modalOpen = false ∧ "X" ≠ "") ∧
    (submitHandler readyState (SubmitOutcome.response false (some "X"))).formErrors = ["X"] :=
  ⟨⟨by decide, rfl, by decide⟩,
   (contact_submit_outcomes readyState "X" none (SubmitOutcome.transportError "offline")
      (by decide) rfl (by decide)).2.1.2⟩

/-- C6: when validation finds violations the handler issues no POST and
replaces any previously rendered errors with exactly the collected list;
and the list collects every violated rule rather than stopping at the
first: each of the four error messages appears in the result precisely
when its rule is violated, independently of the other rules. -/
theorem contact_validation_collects (st : PageState) (o : SubmitOutcome)
    (d : ContactData) (h : validateForm st.fields ≠ []) :
    (submitHandler st o).networkCalls = st.networkCalls ∧
    (submitHandler st o).formErrors = validateForm st.fields ∧
    (nameError ∈ validateForm d ↔ fieldMissingOrShort d.name 2 = true) ∧
    (emailError ∈ validateForm d ↔ emailBad d.email = true) ∧
    (businessError ∈ validateForm d ↔ fieldMissingOrShort d.business 2 = true) ∧
    (messageError ∈ validateForm d ↔ fieldMissingOrShort d.message 10 = true) := by
  have hne : (validateForm st.fields).isEmpty = false := by
    cases hvf : validateForm st.fields with
    | nil => exact absurd hvf h
    | cons a l => rfl
  refine ⟨by simp [submitHandler, hne], by simp [submitHandler, hne], ?_⟩
  cases h1 : fieldMissingOrShort d.name 2 <;>
  cases h2 : emailBad d.email <;>
  cases h3 : fieldMissingOrShort d.business 2 <;>
  cases h4 : fieldMissingOrShort d.message 10 <;>
    simp [validateForm, h1, h2, h3, h4, nameError, emailError, businessError, messageError]

/-- Witness for C6: the spec test vector with empty name and short
business, rejected with no network call and both errors listed. -/
theorem contact_validation_collects_witness :
    validateForm invalidState.fields ≠ [] ∧
    ((submitHandler invalidState (SubmitOutcome.transportError "offline")).networkCalls =
        invalidState.networkCalls ∧
      (submitHandler invalidState (SubmitOutcome.transportError "offline")).formErrors =
        validateForm invalidState.fields) :=
  ⟨by decide,
   ⟨(contact_validation_collects invalidState (SubmitOutcome.transportError "offline")
       specExampleData (by decide)).1,
    (contact_validation_collects invalidState (SubmitOutcome.transportError "offline")
       specExampleData (by decide)).2.1⟩⟩

/-- C7 counterexample: a submission with valid name, email and message
but no business field is rejected by validateForm with the
business-name error, so validation does not pass when the business field
is absent. -/
theorem business_absent_rejected :
    validateForm noBusinessData = [businessError] ∧ validateForm noBusinessData ≠ [] := by
  constructor
  · decide
  · decide

/-- C7 amended: the business field is effectively required, not
optional: validateForm emits the business-name error whenever the field
is absent, empty or shorter than 2 characters, including when the field
is absent entirely, so such a submission never passes validation. -/
theorem business_rule_always_applies (d : ContactData)
    (h : fieldMissingOrShort d.business 2 = true) :
    businessError ∈ validateForm d ∧ validateForm d ≠ [] := by
  have hmem : businessError ∈ validateForm d := by
    unfold validateForm
    rw [h]
    simp
  refine ⟨hmem, fun hnil => ?_⟩
  rw [hnil] at hmem
  exact List.not_mem_nil _ hmem

/-- Witness for the amended C7 at the absent-business submission. -/
theorem business_rule_always_applies_witness :
    fieldMissingOrShort noBusinessData.business 2 = true ∧
    businessError ∈ validateForm noBusinessData :=
  ⟨rfl, (business_rule_always_applies noBusinessData rfl).1⟩

/-- C10: on every submission whose response has success false or whose
network or parse step throws, the form field values are left unchanged;
the form reset runs only on the success branch. -/
theorem submit_failure_preserves_fields (st : PageState) (e : Option String) (m : String) :
    (submitHandler st (SubmitOutcome.response false e)).fields = st.fields ∧
    (submitHandler st (SubmitOutcome.transportError m)).fields = st.fields := by
  cases hv : (validateForm st.fields).isEmpty <;>
    constructor <;> simp [submitHandler, hv]

end MnlAi
